import Mathlib

/-!
Shallow embedding of the barcode-scanner-monitoring core in Lean 4.

The embedding covers:
* the payload classifier (`pkg/barcode`: `Processor.GetBarcodeType`,
  `Processor.generateMessage`, `Processor.ProcessBarcode`,
  `Processor.isAllDigits`, `Processor.isAlphaNumeric`);
* the keystroke assembler (`internal/scanner/hook.go`:
  `Hook.keyboardHookProc`, `Hook.isCharacterKey`,
  `Hook.getCharFromVirtualKey`);
* the WebSocket hub (`internal/websocket/hub.go`: `Hub.Run`'s
  register / unregister / broadcast cases, `Hub.BroadcastBarcode`,
  `NewHub`, the `Message` envelope).

Strings carried through the pipeline are modelled as `List Char`;
timestamps as integer milliseconds.
-/

namespace Barcode

/-- `Processor.isAllDigits`: every rune is between '0' and '9'
(a rune below '0' or above '9' returns false). -/
def isAllDigits (s : List Char) : Bool :=
  s.all fun r => !(r < '0' || r > '9')

/-- `Processor.isAlphaNumeric`: every rune is a digit, an ASCII letter,
'-' or '.'. -/
def isAlphaNumeric (s : List Char) : Bool :=
  s.all fun r =>
    (('0' ≤ r && r ≤ '9') || ('A' ≤ r && r ≤ 'Z') || ('a' ≤ r && r ≤ 'z') ||
      r == '-' || r == '.')

/-- `strings.HasPrefix`. -/
def hasPrefix (s pre : List Char) : Bool :=
  pre.isPrefixOf s

/-- `Processor.GetBarcodeType`.  The Go function first handles the empty
string, then runs a `switch` whose cases are tried in order: the four
all-digit length rules, the alphanumeric rule, the three prefix rules,
and a default. -/
def GetBarcodeType (barcode : List Char) : String :=
  if barcode = [] then "未知"
  else if barcode.length = 8 ∧ isAllDigits barcode then "EAN-8"
  else if barcode.length = 12 ∧ isAllDigits barcode then "UPC-A"
  else if barcode.length = 13 ∧ isAllDigits barcode then "EAN-13"
  else if barcode.length = 14 ∧ isAllDigits barcode then "ITF-14"
  else if isAlphaNumeric barcode then "Code 128"
  else if hasPrefix barcode ['P', 'R', 'D'] then "产品条码"
  else if hasPrefix barcode ['L', 'O', 'T'] then "批次条码"
  else if hasPrefix barcode ['S', 'N'] then "序列号条码"
  else "其他类型"

/-- `Processor.generateMessage`: the status message, whose `switch` tries
the three prefix rules BEFORE the all-digit length rules (the opposite
order to `GetBarcodeType`). -/
def generateMessage (barcode : List Char) : String :=
  if hasPrefix barcode ['P', 'R', 'D'] then "识别为产品条码，正在查询产品信息..."
  else if hasPrefix barcode ['L', 'O', 'T'] then "识别为批次条码，正在查询批次信息..."
  else if hasPrefix barcode ['S', 'N'] then "识别为序列号条码，正在验证序列号..."
  else if barcode.length = 13 ∧ isAllDigits barcode then "识别为EAN-13条码，正在验证..."
  else if barcode.length = 12 ∧ isAllDigits barcode then "识别为UPC-A条码，正在处理..."
  else if barcode.length = 8 ∧ isAllDigits barcode then "识别为EAN-8条码，正在处理..."
  else if barcode.length = 14 ∧ isAllDigits barcode then "识别为ITF-14条码，正在处理..."
  else "通用条码，正在记录..."

/-- `BarcodeData`: the completed, classified payload.  The Go struct's
`time.Time` timestamp is modelled as integer milliseconds. -/
structure BarcodeData where
  content : List Char
  length : Int
  type : String
  timestamp : Int
  status : String
  message : String
  deriving Repr, DecidableEq

/-- `Processor.ProcessBarcode`: builds a `BarcodeData` with the content,
its length, the classified type, the current timestamp (passed in here),
status "success", and the generated message. -/
def ProcessBarcode (content : List Char) (timestamp : Int) : BarcodeData :=
  { content := content
    length := (content.length : Int)
    type := GetBarcodeType content
    timestamp := timestamp
    status := "success"
    message := generateMessage content }

end Barcode

namespace Scanner

/-- `config.ScannerConfig`: timeout in ms, minimum and maximum barcode
length (Go `int` fields, so `Int` here). -/
structure ScannerConfig where
  timeoutMS : Int
  minLength : Int
  maxLength : Int
  deriving Repr, DecidableEq

/-- `config.setDefaults`: scanner.timeout_ms 100, scanner.min_length 3,
scanner.max_length 50. -/
def defaultScannerConfig : ScannerConfig :=
  { timeoutMS := 100, minLength := 3, maxLength := 50 }

/-- The mutable assembler state owned by `scanner.Hook`: the
`strings.Builder` barcode buffer, and the time of the last key event
(integer milliseconds; the Go code stores a `time.Time` and only ever
uses the millisecond difference to the current event). -/
structure HookState where
  barcodeBuffer : List Char
  lastKeyTime : Int
  deriving Repr, DecidableEq

/-- The zero-valued state a freshly constructed `Hook` carries: empty
buffer, zero last-key time. -/
def initialHookState : HookState :=
  { barcodeBuffer := [], lastKeyTime := 0 }

/-- `Hook.isCharacterKey`: digits 0-9 (0x30-0x39), letters A-Z
(0x41-0x5A), numpad digits (0x60-0x69), and the punctuation keys. -/
def isCharacterKey (vkCode : Nat) : Bool :=
  (0x30 ≤ vkCode && vkCode ≤ 0x39) ||
  (0x41 ≤ vkCode && vkCode ≤ 0x5A) ||
  (0x60 ≤ vkCode && vkCode ≤ 0x69) ||
  vkCode == 0xBD || vkCode == 0xBB || vkCode == 0xDB || vkCode == 0xDD ||
  vkCode == 0xDC || vkCode == 0xBA || vkCode == 0xDE || vkCode == 0xBC ||
  vkCode == 0xBE || vkCode == 0xBF

/-- `Hook.getCharFromVirtualKey`: maps a virtual-key code to the byte it
writes into the buffer.  The Go function returns the zero byte for an
unmapped key and the caller guards with `ch != 0`; that sentinel is
modelled as `none`. -/
def getCharFromVirtualKey (vkCode : Nat) : Option Char :=
  if 0x30 ≤ vkCode ∧ vkCode ≤ 0x39 then some (Char.ofNat vkCode)
  else if 0x41 ≤ vkCode ∧ vkCode ≤ 0x5A then some (Char.ofNat vkCode)
  else if 0x60 ≤ vkCode ∧ vkCode ≤ 0x69 then some (Char.ofNat (vkCode - 0x60 + '0'.toNat))
  else if vkCode = 0xBD then some '-'
  else if vkCode = 0xBB then some '='
  else if vkCode = 0xDB then some '['
  else if vkCode = 0xDD then some ']'
  else if vkCode = 0xDC then some '\\'
  else if vkCode = 0xBA then some ';'
  else if vkCode = 0xDE then some '\''
  else if vkCode = 0xBC then some ','
  else if vkCode = 0xBE then some '.'
  else if vkCode = 0xBF then some '/'
  else none

/-- The `WM_KEYDOWN` body of `Hook.keyboardHookProc`, for one key event
at `currentTime` (ms).  Returns the updated state and, when the
carriage-return branch hands a length-valid buffer to
`handler.HandleBarcode`, the emitted barcode content.

Go steps: compute `timeDiff`; if `timeDiff > timeoutMS` reset the
buffer; record `lastKeyTime`; then either append the character mapped
from a character key, or on 0x0D check
`MinLength ≤ len(barcode) ≤ MaxLength`, emit if valid, and reset the
buffer. -/
def keyboardHookProc (cfg : ScannerConfig) (s : HookState)
    (vkCode : Nat) (currentTime : Int) : HookState × Option (List Char) :=
  let timeDiff := currentTime - s.lastKeyTime
  let buffer := if timeDiff > cfg.timeoutMS then [] else s.barcodeBuffer
  if isCharacterKey vkCode then
    match getCharFromVirtualKey vkCode with
    | some ch => ({ barcodeBuffer := buffer ++ [ch], lastKeyTime := currentTime }, none)
    | none => ({ barcodeBuffer := buffer, lastKeyTime := currentTime }, none)
  else if vkCode = 0x0D then
    let barcode := buffer
    if cfg.minLength ≤ (barcode.length : Int) ∧ (barcode.length : Int) ≤ cfg.maxLength then
      ({ barcodeBuffer := [], lastKeyTime := currentTime }, some barcode)
    else
      ({ barcodeBuffer := [], lastKeyTime := currentTime }, none)
  else
    ({ barcodeBuffer := buffer, lastKeyTime := currentTime }, none)

/-- One key event: virtual-key code and arrival time in ms. -/
structure KeyEvent where
  vkCode : Nat
  time : Int
  deriving Repr, DecidableEq

/-- Runs the assembler over a list of key events, collecting every
barcode content it hands to the handler, in order. -/
def runEvents (cfg : ScannerConfig) (s : HookState) :
    List KeyEvent → HookState × List (List Char)
  | [] => (s, [])
  | e :: rest =>
    let (s', out) := keyboardHookProc cfg s e.vkCode e.time
    let (sEnd, outs) := runEvents cfg s' rest
    (sEnd, (out.toList) ++ outs)

end Scanner

namespace Hub

/-- The payload of a `websocket.Message` envelope's `data` field
(`interface{}` in Go, `json:"data,omitempty"`): absent, a string map
(the welcome greeting), or a `BarcodeData`. -/
inductive MsgData where
  | none
  | strMap (entries : List (String × String))
  | barcode (b : Barcode.BarcodeData)
  deriving Repr, DecidableEq

/-- `websocket.Message`: type tag, data, envelope timestamp. -/
structure Message where
  type : String
  data : MsgData
  time : Int
  deriving Repr, DecidableEq

/-- The welcome message built in the register case of `Hub.Run`
(`Type: "welcome"`, `Data: map[string]string{"message": ...}`,
`Time: time.Now()`). -/
def welcomeMsg (now : Int) : Message :=
  { type := "welcome"
    data := MsgData.strMap [("message", "WebSocket连接成功，等待扫码数据...")]
    time := now }

/-- One `websocket.Client`: an identifier standing for the Go pointer
identity, the buffered `send` channel's pending contents, and that
channel's capacity.  Channel sends in the hub are all of the
non-blocking `select`/`default` form: a send succeeds exactly when the
pending count is below capacity. -/
structure Client where
  id : Nat
  send : List Message
  sendCap : Nat
  deriving Repr, DecidableEq

/-- The client built in `Hub.HandleWebSocket`:
`send: make(chan []byte, 256)`. -/
def newClient (id : Nat) : Client :=
  { id := id, send := [], sendCap := 256 }

/-- The hub state touched by the claims: the `clients` set (as a list,
one entry per Go map key) and the buffered `broadcast` channel with its
capacity. -/
structure HubState where
  clients : List Client
  broadcast : List Message
  broadcastCap : Nat
  deriving Repr, DecidableEq

/-- `NewHub`: empty client set, `broadcast: make(chan []byte, 256)`. -/
def NewHub : HubState :=
  { clients := [], broadcast := [], broadcastCap := 256 }

/-- The register case of `Hub.Run`: add the client to the set, then try
a non-blocking send of the welcome message onto its queue; on a full
queue the client's queue is closed and it is deleted again (the net
effect modelled here).  `json.Marshal` of the welcome message always
succeeds, so the `err == nil` branch is always taken.  Returns the new
state and whether the fresh client's queue was closed. -/
def registerStep (h : HubState) (c : Client) (now : Int) : HubState × Bool :=
  if c.send.length < c.sendCap then
    ({ h with clients := h.clients ++ [{ c with send := c.send ++ [welcomeMsg now] }] }, false)
  else
    (h, true)

/-- The unregister case of `Hub.Run`: only when the client is present is
it deleted and its queue closed.  Returns the new state and whether a
queue was closed. -/
def unregisterStep (h : HubState) (cid : Nat) : HubState × Bool :=
  if h.clients.any fun c => c.id = cid then
    ({ h with clients := h.clients.filter fun c => ¬ c.id = cid }, true)
  else
    (h, false)

/-- The per-client loop of the broadcast case of `Hub.Run`: a
non-blocking send of the message to each client; on a full queue the
client's queue is closed and it is deleted.  Returns the surviving
clients (message enqueued) and the dropped clients (queue closed). -/
def broadcastClients (message : Message) : List Client → List Client × List Client
  | [] => ([], [])
  | c :: rest =>
    let (stay, dropped) := broadcastClients message rest
    if c.send.length < c.sendCap then
      ({ c with send := c.send ++ [message] } :: stay, dropped)
    else
      (stay, c :: dropped)

/-- The broadcast case of `Hub.Run`, applied to one message taken off
the `broadcast` channel. -/
def broadcastStep (h : HubState) (message : Message) : HubState × List Client :=
  let (stay, dropped) := broadcastClients message h.clients
  ({ h with clients := stay }, dropped)

/-- `Hub.BroadcastBarcode`: wrap the `BarcodeData` in a
`Type: "barcode"` envelope and try a non-blocking send onto the hub's
`broadcast` channel; when the channel is full the message is dropped
(only a warning is logged) and the function returns.  Its Go return
type is `void`: no error is surfaced.  `json.Marshal` of a
`BarcodeData` always succeeds, so the early-return error branch is
never taken. -/
def BroadcastBarcode (h : HubState) (barcodeData : Barcode.BarcodeData)
    (now : Int) : HubState :=
  let message : Message := { type := "barcode", data := MsgData.barcode barcodeData, time := now }
  if h.broadcast.length < h.broadcastCap then
    { h with broadcast := h.broadcast ++ [message] }
  else
    h

/-- A hub client with identifier `cid` has `m` in its pending queue. -/
def receives (h : HubState) (cid : Nat) (m : Message) : Prop :=
  ∃ c ∈ h.clients, c.id = cid ∧ m ∈ c.send

end Hub

/-- C1: the claim says a `PRD`-prefixed content always classifies as the
product-barcode type because the prefix rules are tried first.  In
`Processor.GetBarcodeType` the alphanumeric rule is tried BEFORE the
prefix rules, so `"PRD99"` and `"PRD1234567890"` classify as
`"Code 128"`, not as the product-barcode type `"产品条码"` — while the
same processor's `Processor.generateMessage` tries the prefix rules
first and labels `"PRD99"` a product barcode, so one `ProcessBarcode`
call returns a type and a message that disagree. -/
theorem getBarcodeType_prefix_rule_shadowed_by_alphanumeric :
    Barcode.GetBarcodeType "PRD99".data = "Code 128" ∧
    Barcode.GetBarcodeType "PRD1234567890".data = "Code 128" ∧
    Barcode.GetBarcodeType "PRD99".data ≠ "产品条码" ∧
    Barcode.GetBarcodeType "PRD1234567890".data ≠ "EAN-13" ∧
    Barcode.generateMessage "PRD99".data = "识别为产品条码，正在查询产品信息..." ∧
    (Barcode.ProcessBarcode "PRD99".data 0).type = "Code 128" ∧
    (Barcode.ProcessBarcode "PRD99".data 0).message = "识别为产品条码，正在查询产品信息..." := by
  decide

/-- C2 counterexample: the welcome message the register case of
`Hub.Run` enqueues does carry a `data` payload — its `data` field is
neither absent nor an empty map, so the claim that the data field is
absent/empty is false. -/
theorem welcomeMsg_data_not_absent :
    (Hub.welcomeMsg 0).data ≠ Hub.MsgData.none ∧
    (Hub.welcomeMsg 0).data ≠ Hub.MsgData.strMap [] := by
  decide

/-- C2 amended: every welcome message the Hub enqueues to a newly
registered subscriber (one whose fresh queue has free capacity) is an
envelope whose type field is `"welcome"` and whose `data` field carries
exactly the fixed human-readable greeting under the key `"message"`,
together with a timestamp. -/
theorem registerStep_welcome_envelope (h : Hub.HubState) (c : Hub.Client)
    (now : Int) (hfree : c.send.length < c.sendCap) :
    (Hub.registerStep h c now).1.clients =
      h.clients ++ [{ c with send := c.send ++ [Hub.welcomeMsg now] }] ∧
    (Hub.welcomeMsg now).type = "welcome" ∧
    (Hub.welcomeMsg now).data =
      Hub.MsgData.strMap [("message", "WebSocket连接成功，等待扫码数据...")] ∧
    (Hub.welcomeMsg now).time = now := by
  refine ⟨?_, rfl, rfl, rfl⟩
  simp [Hub.registerStep, hfree]

/-- C2 amended, witness at a fresh client with an empty queue. -/
theorem registerStep_welcome_envelope_witness :
    (Hub.registerStep Hub.NewHub (Hub.newClient 0) 5).1.clients =
      Hub.NewHub.clients ++
        [{ Hub.newClient 0 with send := (Hub.newClient 0).send ++ [Hub.welcomeMsg 5] }] ∧
    (Hub.welcomeMsg 5).type = "welcome" ∧
    (Hub.welcomeMsg 5).data =
      Hub.MsgData.strMap [("message", "WebSocket连接成功，等待扫码数据...")] ∧
    (Hub.welcomeMsg 5).time = 5 :=
  registerStep_welcome_envelope Hub.NewHub (Hub.newClient 0) 5 (by decide)

/-- C9: after the assembler processes a carriage-return event, from any
prior state, the assembly buffer is empty — also when the candidate was
rejected for its length and nothing was emitted. -/
theorem keyboardHookProc_cr_resets_buffer (cfg : Scanner.ScannerConfig)
    (s : Scanner.HookState) (t : Int) :
    (Scanner.keyboardHookProc cfg s 0x0D t).1.barcodeBuffer = [] := by
  have h13 : Scanner.isCharacterKey 0x0D = false := by decide
  simp only [Scanner.keyboardHookProc, h13, Bool.false_eq_true, if_false, if_pos]
  split <;> split <;> rfl

/-- C3: on a carriage-return event the assembler emits a payload iff the
accumulated buffer's length is within `[minLength, maxLength]`
(defaults 3 and 50): (i) any emitted content, whatever the event, has
its length in range; (ii) with no timeout gap, the terminator emits the
buffer exactly when its length is in range and emits nothing otherwise;
(iii) events 'A','B' then carriage-return (length 2 < 3) emit no
payload under the default configuration. -/
theorem keyboardHookProc_cr_length_gate (cfg : Scanner.ScannerConfig)
    (s : Scanner.HookState) (t : Int) :
    (∀ vk content, (Scanner.keyboardHookProc cfg s vk t).2 = some content →
      cfg.minLength ≤ (content.length : Int) ∧ (content.length : Int) ≤ cfg.maxLength) ∧
    (t - s.lastKeyTime ≤ cfg.timeoutMS →
      ((Scanner.keyboardHookProc cfg s 0x0D t).2 = some s.barcodeBuffer ↔
        cfg.minLength ≤ (s.barcodeBuffer.length : Int) ∧
          (s.barcodeBuffer.length : Int) ≤ cfg.maxLength) ∧
      (¬ (cfg.minLength ≤ (s.barcodeBuffer.length : Int) ∧
          (s.barcodeBuffer.length : Int) ≤ cfg.maxLength) →
        (Scanner.keyboardHookProc cfg s 0x0D t).2 = none)) ∧
    (Scanner.runEvents Scanner.defaultScannerConfig Scanner.initialHookState
      [⟨0x41, 1000⟩, ⟨0x42, 1010⟩, ⟨0x0D, 1020⟩]).2 = [] ∧
    Scanner.defaultScannerConfig.minLength = 3 ∧
    Scanner.defaultScannerConfig.maxLength = 50 := by
  have h13 : Scanner.isCharacterKey 0x0D = false := by decide
  refine ⟨?_, ?_, by decide, rfl, rfl⟩
  · intro vk content hout
    simp only [Scanner.keyboardHookProc] at hout
    split at hout
    · split at hout <;> simp_all
    · split at hout
      · split at hout <;> (split at hout <;> simp_all)
      · simp_all
  · intro hgap
    have hnogap : ¬ t - s.lastKeyTime > cfg.timeoutMS := not_lt.mpr hgap
    constructor
    · by_cases hrange : cfg.minLength ≤ (s.barcodeBuffer.length : Int) ∧
          (s.barcodeBuffer.length : Int) ≤ cfg.maxLength
      · simp [Scanner.keyboardHookProc, hnogap, h13, hrange]
      · simp [Scanner.keyboardHookProc, hnogap, h13, hrange]
    · intro hrange
      simp [Scanner.keyboardHookProc, hnogap, h13, hrange]

/-- C3 witness: a two-character buffer at the default minimum 3 emits
nothing; instantiated at a concrete state with no timeout gap. -/
theorem keyboardHookProc_cr_length_gate_witness :
    (∀ vk content,
      (Scanner.keyboardHookProc Scanner.defaultScannerConfig ⟨['A', 'B'], 1000⟩ vk 1010).2 =
        some content →
      Scanner.defaultScannerConfig.minLength ≤ (content.length : Int) ∧
        (content.length : Int) ≤ Scanner.defaultScannerConfig.maxLength) ∧
    ((1010 : Int) - (⟨['A', 'B'], 1000⟩ : Scanner.HookState).lastKeyTime ≤
        Scanner.defaultScannerConfig.timeoutMS →
      ((Scanner.keyboardHookProc Scanner.defaultScannerConfig ⟨['A', 'B'], 1000⟩ 0x0D 1010).2 =
          some (⟨['A', 'B'], 1000⟩ : Scanner.HookState).barcodeBuffer ↔
        Scanner.defaultScannerConfig.minLength ≤
            (((⟨['A', 'B'], 1000⟩ : Scanner.HookState).barcodeBuffer.length : Int)) ∧
          (((⟨['A', 'B'], 1000⟩ : Scanner.HookState).barcodeBuffer.length : Int)) ≤
            Scanner.defaultScannerConfig.maxLength) ∧
      (¬ (Scanner.defaultScannerConfig.minLength ≤
            (((⟨['A', 'B'], 1000⟩ : Scanner.HookState).barcodeBuffer.length : Int)) ∧
          (((⟨['A', 'B'], 1000⟩ : Scanner.HookState).barcodeBuffer.length : Int)) ≤
            Scanner.defaultScannerConfig.maxLength) →
        (Scanner.keyboardHookProc Scanner.defaultScannerConfig ⟨['A', 'B'], 1000⟩ 0x0D 1010).2 =
          none)) ∧
    (Scanner.runEvents Scanner.defaultScannerConfig Scanner.initialHookState
      [⟨0x41, 1000⟩, ⟨0x42, 1010⟩, ⟨0x0D, 1020⟩]).2 = [] ∧
    Scanner.defaultScannerConfig.minLength = 3 ∧
    Scanner.defaultScannerConfig.maxLength = 50 :=
  keyboardHookProc_cr_length_gate Scanner.defaultScannerConfig ⟨['A', 'B'], 1000⟩ 1010

/-- C4: an inter-key gap exceeding the timeout discards the buffer
accumulated before the event — processing the event from a state whose
buffer was already empty gives the same result — and the end-to-end
scenario '1','2','3', a 500 ms pause, '4','5','6', carriage-return
emits exactly the payload content "456", not "123456". -/
theorem keyboardHookProc_timeout_discards (cfg : Scanner.ScannerConfig)
    (s : Scanner.HookState) (vk : Nat) (t : Int)
    (hgap : t - s.lastKeyTime > cfg.timeoutMS) :
    Scanner.keyboardHookProc cfg s vk t =
      Scanner.keyboardHookProc cfg { barcodeBuffer := [], lastKeyTime := s.lastKeyTime } vk t ∧
    (Scanner.runEvents Scanner.defaultScannerConfig Scanner.initialHookState
      [⟨0x31, 1000⟩, ⟨0x32, 1010⟩, ⟨0x33, 1020⟩, ⟨0x34, 1520⟩, ⟨0x35, 1530⟩,
        ⟨0x36, 1540⟩, ⟨0x0D, 1550⟩]).2 = [['4', '5', '6']] ∧
    (['4', '5', '6'] : List Char) ≠ ['1', '2', '3', '4', '5', '6'] := by
  refine ⟨?_, by decide, by decide⟩
  simp only [Scanner.keyboardHookProc, hgap, if_pos, if_true]

/-- C4 witness: instantiated at a concrete state holding "123" with a
500 ms gap. -/
theorem keyboardHookProc_timeout_discards_witness :
    Scanner.keyboardHookProc Scanner.defaultScannerConfig ⟨['1', '2', '3'], 1020⟩ 0x34 1520 =
      Scanner.keyboardHookProc Scanner.defaultScannerConfig
        { barcodeBuffer := [], lastKeyTime := (⟨['1', '2', '3'], 1020⟩ : Scanner.HookState).lastKeyTime }
        0x34 1520 ∧
    (Scanner.runEvents Scanner.defaultScannerConfig Scanner.initialHookState
      [⟨0x31, 1000⟩, ⟨0x32, 1010⟩, ⟨0x33, 1020⟩, ⟨0x34, 1520⟩, ⟨0x35, 1530⟩,
        ⟨0x36, 1540⟩, ⟨0x0D, 1550⟩]).2 = [['4', '5', '6']] ∧
    (['4', '5', '6'] : List Char) ≠ ['1', '2', '3', '4', '5', '6'] :=
  keyboardHookProc_timeout_discards Scanner.defaultScannerConfig
    ⟨['1', '2', '3'], 1020⟩ 0x34 1520 (by decide)

/-- C5: all-digit contents classify by length — 8 → EAN-8, 12 → UPC-A,
13 → EAN-13, 14 → ITF-14 — and end to end, the thirteen digit key events
of scenario 1, each 50 ms apart, followed by carriage-return emit
exactly one payload whose processed data has content "1234567890123",
type EAN-13 and status success. -/
theorem getBarcodeType_all_digit_lengths (s : List Char) (t : Int)
    (hd : Barcode.isAllDigits s = true) :
    (s.length = 8 → Barcode.GetBarcodeType s = "EAN-8") ∧
    (s.length = 12 → Barcode.GetBarcodeType s = "UPC-A") ∧
    (s.length = 13 → Barcode.GetBarcodeType s = "EAN-13") ∧
    (s.length = 14 → Barcode.GetBarcodeType s = "ITF-14") ∧
    (Scanner.runEvents Scanner.defaultScannerConfig Scanner.initialHookState
      [⟨0x31, 1000⟩, ⟨0x32, 1050⟩, ⟨0x33, 1100⟩, ⟨0x34, 1150⟩, ⟨0x35, 1200⟩,
        ⟨0x36, 1250⟩, ⟨0x37, 1300⟩, ⟨0x38, 1350⟩, ⟨0x39, 1400⟩, ⟨0x30, 1450⟩,
        ⟨0x31, 1500⟩, ⟨0x32, 1550⟩, ⟨0x33, 1600⟩, ⟨0x0D, 1650⟩]).2 =
      ["1234567890123".data] ∧
    (Barcode.ProcessBarcode "1234567890123".data t).content = "1234567890123".data ∧
    (Barcode.ProcessBarcode "1234567890123".data t).type = "EAN-13" ∧
    (Barcode.ProcessBarcode "1234567890123".data t).status = "success" := by
  have hne : s.length ≠ 0 → s ≠ [] := by
    intro hl he
    rw [he] at hl
    simp at hl
  refine ⟨?_, ?_, ?_, ?_, by decide, rfl,
      by show Barcode.GetBarcodeType "1234567890123".data = "EAN-13"; decide, rfl⟩ <;>
    intro hlen <;>
    simp [Barcode.GetBarcodeType, hne (by omega), hlen, hd]

/-- C5 witness: instantiated at the all-digit content "1234567890123". -/
theorem getBarcodeType_all_digit_lengths_witness :
    (("1234567890123".data).length = 8 →
      Barcode.GetBarcodeType "1234567890123".data = "EAN-8") ∧
    (("1234567890123".data).length = 12 →
      Barcode.GetBarcodeType "1234567890123".data = "UPC-A") ∧
    (("1234567890123".data).length = 13 →
      Barcode.GetBarcodeType "1234567890123".data = "EAN-13") ∧
    (("1234567890123".data).length = 14 →
      Barcode.GetBarcodeType "1234567890123".data = "ITF-14") ∧
    (Scanner.runEvents Scanner.defaultScannerConfig Scanner.initialHookState
      [⟨0x31, 1000⟩, ⟨0x32, 1050⟩, ⟨0x33, 1100⟩, ⟨0x34, 1150⟩, ⟨0x35, 1200⟩,
        ⟨0x36, 1250⟩, ⟨0x37, 1300⟩, ⟨0x38, 1350⟩, ⟨0x39, 1400⟩, ⟨0x30, 1450⟩,
        ⟨0x31, 1500⟩, ⟨0x32, 1550⟩, ⟨0x33, 1600⟩, ⟨0x0D, 1650⟩]).2 =
      ["1234567890123".data] ∧
    (Barcode.ProcessBarcode "1234567890123".data 0).content = "1234567890123".data ∧
    (Barcode.ProcessBarcode "1234567890123".data 0).type = "EAN-13" ∧
    (Barcode.ProcessBarcode "1234567890123".data 0).status = "success" :=
  getBarcodeType_all_digit_lengths "1234567890123".data 0 (by decide)

/-- The broadcast loop of `Hub.Run`, characterized: clients with free
queue capacity survive with the message appended, the others are
dropped. -/
theorem broadcastClients_eq (m : Hub.Message) (l : List Hub.Client) :
    Hub.broadcastClients m l =
      ((l.filter fun c => c.send.length < c.sendCap).map
        fun c => { c with send := c.send ++ [m] },
       l.filter fun c => ¬ c.send.length < c.sendCap) := by
  induction l with
  | nil => rfl
  | cons c rest ih =>
    by_cases hc : c.send.length < c.sendCap
    · simp [Hub.broadcastClients, ih, List.filter_cons, hc]
    · simp [Hub.broadcastClients, ih, List.filter_cons, hc, not_lt.mp hc]

/-- C6: a broadcast step delivers the message to every subscriber whose
queue has free capacity, drops (closing) exactly the subscribers whose
queues are full without preventing delivery to the rest, and a
subscriber registered after the broadcast never has that message in its
queue. -/
theorem broadcastStep_delivery (h : Hub.HubState) (m : Hub.Message)
    (cid : Nat) (now : Int) (hm : m.type ≠ "welcome")
    (hfresh : ∀ c ∈ h.clients, c.id ≠ cid) :
    (Hub.broadcastStep h m).1.clients =
      ((h.clients.filter fun c => c.send.length < c.sendCap).map
        fun c => { c with send := c.send ++ [m] }) ∧
    (Hub.broadcastStep h m).2 = h.clients.filter (fun c => ¬ c.send.length < c.sendCap) ∧
    (∀ c ∈ h.clients, c.send.length < c.sendCap →
      { c with send := c.send ++ [m] } ∈ (Hub.broadcastStep h m).1.clients) ∧
    ¬ Hub.receives (Hub.registerStep (Hub.broadcastStep h m).1 (Hub.newClient cid) now).1 cid m := by
  have hstep := broadcastClients_eq m h.clients
  have h1 : (Hub.broadcastStep h m).1.clients =
      ((h.clients.filter fun c => c.send.length < c.sendCap).map
        fun c => { c with send := c.send ++ [m] }) := by
    simp [Hub.broadcastStep, hstep]
  have h2 : (Hub.broadcastStep h m).2 =
      h.clients.filter (fun c => ¬ c.send.length < c.sendCap) := by
    simp [Hub.broadcastStep, hstep]
  refine ⟨h1, h2, ?_, ?_⟩
  · intro c hc hfree
    rw [h1]
    exact List.mem_map_of_mem _ (List.mem_filter.mpr ⟨hc, by simpa using hfree⟩)
  · intro ⟨c, hcmem, hcid, hmsend⟩
    have hreg : (Hub.registerStep (Hub.broadcastStep h m).1 (Hub.newClient cid) now).1.clients =
        (Hub.broadcastStep h m).1.clients ++
          [{ Hub.newClient cid with send := [Hub.welcomeMsg now] }] := by
      simp [Hub.registerStep, Hub.newClient]
    rw [hreg] at hcmem
    rcases List.mem_append.mp hcmem with hstay | hlast
    · rw [h1] at hstay
      rcases List.mem_map.mp hstay with ⟨c₀, hc₀, hc₀eq⟩
      have : c₀.id ≠ cid := hfresh c₀ (List.mem_filter.mp hc₀).1
      rw [← hc₀eq] at hcid
      exact this hcid
    · have heq : c = { Hub.newClient cid with send := [Hub.welcomeMsg now] } := by
        simpa using hlast
      rw [heq] at hmsend
      simp only [Hub.newClient] at hmsend
      have : m = Hub.welcomeMsg now := by simpa using hmsend
      rw [this] at hm
      exact hm rfl

/-- C6 witness: a hub with one free-capacity client and one client whose
queue is full, broadcasting a barcode-typed message. -/
theorem broadcastStep_delivery_witness :
    (Hub.broadcastStep ⟨[⟨1, [], 2⟩, ⟨2, [Hub.welcomeMsg 0, Hub.welcomeMsg 0], 2⟩], [], 256⟩
        ⟨"barcode", Hub.MsgData.none, 7⟩).1.clients =
      ((([⟨1, [], 2⟩, ⟨2, [Hub.welcomeMsg 0, Hub.welcomeMsg 0], 2⟩] :
          List Hub.Client).filter fun c => c.send.length < c.sendCap).map
        fun c => { c with send := c.send ++ [⟨"barcode", Hub.MsgData.none, 7⟩] }) ∧
    (Hub.broadcastStep ⟨[⟨1, [], 2⟩, ⟨2, [Hub.welcomeMsg 0, Hub.welcomeMsg 0], 2⟩], [], 256⟩
        ⟨"barcode", Hub.MsgData.none, 7⟩).2 =
      ([⟨1, [], 2⟩, ⟨2, [Hub.welcomeMsg 0, Hub.welcomeMsg 0], 2⟩] :
          List Hub.Client).filter (fun c => ¬ c.send.length < c.sendCap) ∧
    (∀ c ∈ ([⟨1, [], 2⟩, ⟨2, [Hub.welcomeMsg 0, Hub.welcomeMsg 0], 2⟩] : List Hub.Client),
      c.send.length < c.sendCap →
      { c with send := c.send ++ [⟨"barcode", Hub.MsgData.none, 7⟩] } ∈
        (Hub.broadcastStep ⟨[⟨1, [], 2⟩, ⟨2, [Hub.welcomeMsg 0, Hub.welcomeMsg 0], 2⟩], [], 256⟩
          ⟨"barcode", Hub.MsgData.none, 7⟩).1.clients) ∧
    ¬ Hub.receives
        (Hub.registerStep
          (Hub.broadcastStep ⟨[⟨1, [], 2⟩, ⟨2, [Hub.welcomeMsg 0, Hub.welcomeMsg 0], 2⟩], [], 256⟩
            ⟨"barcode", Hub.MsgData.none, 7⟩).1
          (Hub.newClient 5) 9).1
        5 ⟨"barcode", Hub.MsgData.none, 7⟩ :=
  broadcastStep_delivery
    ⟨[⟨1, [], 2⟩, ⟨2, [Hub.welcomeMsg 0, Hub.welcomeMsg 0], 2⟩], [], 256⟩
    ⟨"barcode", Hub.MsgData.none, 7⟩ 5 9 (by decide) (by decide)

/-- C7: unregistering is idempotent — applying it twice equals applying
it once and the second application closes nothing; unregistering an
absent subscriber leaves the hub unchanged and closes nothing; when the
subscriber is present it is removed and its queue closed exactly
once. -/
theorem unregisterStep_idempotent (h : Hub.HubState) (cid : Nat) :
    Hub.unregisterStep (Hub.unregisterStep h cid).1 cid =
      ((Hub.unregisterStep h cid).1, false) ∧
    ((¬ ∃ c ∈ h.clients, c.id = cid) → Hub.unregisterStep h cid = (h, false)) ∧
    ((∃ c ∈ h.clients, c.id = cid) →
      (Hub.unregisterStep h cid).2 = true ∧
      ∀ c ∈ (Hub.unregisterStep h cid).1.clients, c.id ≠ cid) := by
  have hany : ∀ l : List Hub.Client,
      (l.any fun c => c.id = cid) = true ↔ ∃ c ∈ l, c.id = cid := by
    intro l
    simp [List.any_eq_true]
  refine ⟨?_, ?_, ?_⟩
  · by_cases hpres : (h.clients.any fun c => c.id = cid) = true
    · have h1 : (Hub.unregisterStep h cid).1 =
          { h with clients := h.clients.filter fun c => ¬ c.id = cid } := by
        simp [Hub.unregisterStep, hpres]
      have hnone : (((h.clients.filter fun c => ¬ c.id = cid).any fun c => c.id = cid)) = false := by
        rw [Bool.eq_false_iff]
        intro hcontra
        rcases (hany _).mp hcontra with ⟨c, hcmem, hcid⟩
        have := (List.mem_filter.mp hcmem).2
        simp [hcid] at this
      rw [h1]
      simp [Hub.unregisterStep, hnone]
    · have h1 : (Hub.unregisterStep h cid).1 = h := by
        simp [Hub.unregisterStep, hpres]
      rw [h1]
      simp [Hub.unregisterStep, hpres]
  · intro habs
    have hpres : (h.clients.any fun c => c.id = cid) = false := by
      rw [Bool.eq_false_iff]
      intro hcontra
      exact habs ((hany _).mp hcontra)
    simp [Hub.unregisterStep, hpres]
  · intro hex
    have hpres : (h.clients.any fun c => c.id = cid) = true := (hany _).mpr hex
    constructor
    · simp [Hub.unregisterStep, hpres]
    · intro c hcmem
      have h1 : (Hub.unregisterStep h cid).1.clients =
          h.clients.filter fun c => ¬ c.id = cid := by
        simp [Hub.unregisterStep, hpres]
      rw [h1] at hcmem
      have := (List.mem_filter.mp hcmem).2
      simpa using this

/-- C7 witness: a hub holding one client with identifier 1. -/
theorem unregisterStep_idempotent_witness :
    Hub.unregisterStep (Hub.unregisterStep ⟨[⟨1, [], 256⟩], [], 256⟩ 1).1 1 =
      ((Hub.unregisterStep ⟨[⟨1, [], 256⟩], [], 256⟩ 1).1, false) ∧
    ((¬ ∃ c ∈ ([⟨1, [], 256⟩] : List Hub.Client), c.id = 1) →
      Hub.unregisterStep ⟨[⟨1, [], 256⟩], [], 256⟩ 1 = (⟨[⟨1, [], 256⟩], [], 256⟩, false)) ∧
    ((∃ c ∈ ([⟨1, [], 256⟩] : List Hub.Client), c.id = 1) →
      (Hub.unregisterStep ⟨[⟨1, [], 256⟩], [], 256⟩ 1).2 = true ∧
      ∀ c ∈ (Hub.unregisterStep ⟨[⟨1, [], 256⟩], [], 256⟩ 1).1.clients, c.id ≠ 1) :=
  unregisterStep_idempotent ⟨[⟨1, [], 256⟩], [], 256⟩ 1

/-- C8: submitting a broadcast while the hub's inbound broadcast channel
is at capacity leaves the hub completely unchanged — the newest message
is dropped, no subscriber or queue is touched, and (the Go function
returning nothing) no error is surfaced; the channel bound `NewHub`
creates is 256. -/
theorem broadcastBarcode_overflow_drops_newest (h : Hub.HubState)
    (b : Barcode.BarcodeData) (now : Int)
    (hfull : ¬ h.broadcast.length < h.broadcastCap) :
    Hub.BroadcastBarcode h b now = h ∧
    (Hub.BroadcastBarcode h b now).clients = h.clients ∧
    Hub.NewHub.broadcastCap = 256 := by
  have hEq : Hub.BroadcastBarcode h b now = h := by
    simp [Hub.BroadcastBarcode, hfull]
  exact ⟨hEq, by rw [hEq], rfl⟩

/-- C8 witness: a hub whose inbound channel (capacity 1) already holds
one pending message. -/
theorem broadcastBarcode_overflow_drops_newest_witness :
    Hub.BroadcastBarcode ⟨[], [Hub.welcomeMsg 0], 1⟩ (Barcode.ProcessBarcode [] 0) 3 =
      ⟨[], [Hub.welcomeMsg 0], 1⟩ ∧
    (Hub.BroadcastBarcode ⟨[], [Hub.welcomeMsg 0], 1⟩ (Barcode.ProcessBarcode [] 0) 3).clients =
      (⟨[], [Hub.welcomeMsg 0], 1⟩ : Hub.HubState).clients ∧
    Hub.NewHub.broadcastCap = 256 :=
  broadcastBarcode_overflow_drops_newest ⟨[], [Hub.welcomeMsg 0], 1⟩
    (Barcode.ProcessBarcode [] 0) 3 (by decide)

/-- C10: classifying the empty character sequence returns the dedicated
unknown type `"未知"`, distinct from every listed barcode type, even
though the empty sequence vacuously satisfies
`Processor.isAlphaNumeric`. -/
theorem getBarcodeType_empty_unknown :
    Barcode.GetBarcodeType [] = "未知" ∧
    Barcode.isAlphaNumeric [] = true ∧
    Barcode.GetBarcodeType [] ≠ "EAN-8" ∧
    Barcode.GetBarcodeType [] ≠ "UPC-A" ∧
    Barcode.GetBarcodeType [] ≠ "EAN-13" ∧
    Barcode.GetBarcodeType [] ≠ "ITF-14" ∧
    Barcode.GetBarcodeType [] ≠ "Code 128" ∧
    Barcode.GetBarcodeType [] ≠ "产品条码" ∧
    Barcode.GetBarcodeType [] ≠ "批次条码" ∧
    Barcode.GetBarcodeType [] ≠ "序列号条码" ∧
    Barcode.GetBarcodeType [] ≠ "其他类型" := by
  decide
